import Mathlib

/-!
# Verification of the BeagleTerm SSH transport core

A shallow embedding of the state-machine fragments of the BeagleTerm
repository (libssh-0.5.2 client transport plus the `SSHTerminal`
plugin glue), together with theorems settling the specification
claims about them.

Each definition mirrors one C function of the repository.  Calls into
components that are out of scope (crypto primitives, socket I/O,
buffer allocation) are passed in as explicit oracle records of
booleans/outcomes, so the control flow of the embedded function is
exactly that of the C source.
-/

set_option autoImplicit false

namespace BeagleTerm

/-! ## Return codes

The numeric return codes of libssh (`libssh.h` is not part of the
source tree; the values below are the ones referenced throughout the
in-tree doc comments: `SSH_OK`/`SSH_ERROR`/`SSH_AGAIN`). -/

def SSH_OK : Int := 0

def SSH_ERROR : Int := -1

def SSH_AGAIN : Int := -2

/-- Modelled from the spec: `SSH_EINTR` is declared in `libssh.h`,
which is absent from the source tree.  The doc comment of
`ssh_select` states it is a value distinct from `-1` returned when the
blocking wait is interrupted ("interrupted, retry"), and `libssh.h`
defines it as the member of `ssh_error_types_e` following `SSH_FATAL`,
i.e. `3`. -/
def SSH_EINTR : Int := 3

/-! ## Session and DH handshake states (`session.h`, mirrored by the
state switches in the in-tree client code) -/

/-- The `SSH_SESSION_STATE_*` enumeration. -/
inductive SessionState where
  | none_
  | connecting
  | socketConnected
  | bannerReceived
  | initialKex
  | kexinitReceived
  | dh
  | authenticating
  | authenticated
  | disconnected
  | error
  deriving DecidableEq, Repr

/-- The `DH_STATE_*` enumeration of the Diffie-Hellman sub-state machine. -/
inductive DhState where
  | init
  | initSent
  | newkeysSent
  | finished
  deriving DecidableEq, Repr

/-! ## Banner reception (`callback_receive_banner`)

The callback receives the raw bytes available on the socket while the
session is in state `SOCKET_CONNECTED` and scans for the first
newline.  Bytes are `Nat` code points: `10` is `\n`, `13` is `\r`,
`0` is the C string terminator. -/

/-- A raw network byte. -/
abbrev Byte := Nat

/-- The session fields read/written by `callback_receive_banner`. -/
structure BannerState where
  session_state : SessionState
  serverbanner : Option (List Byte)
  deriving DecidableEq, Repr

/-- Result of one invocation of `callback_receive_banner`: the C
return value (`ret`: bytes consumed, `0`, or `SSH_ERROR`) and the
updated session fields. -/
structure BannerResult where
  ret : Int
  session_state : SessionState
  serverbanner : Option (List Byte)
  deriving DecidableEq, Repr

/-- The in-place rewriting the scanning loop performs on each byte
before testing for the newline: a `\r` is overwritten with `\0`. -/
def crToNul (b : Byte) : Byte := if b = 13 then 0 else b

/-- The scanning loop of `callback_receive_banner`.  `acc` is the
in-place processed prefix of the buffer (each `\r` already overwritten
with `\0`), `i` the current index.  On `\n` at index `i` the banner is
`strdup(buffer)`: the processed prefix up to its first `\0`.  After a
non-newline byte at an index greater than `127` the session enters the
`ERROR` state ("too large banner") and `0` is returned. -/
def bannerScan (st : BannerState) : List Byte → List Byte → Nat → BannerResult
  | _acc, [], _ => ⟨0, st.session_state, st.serverbanner⟩
  | acc, b :: rest, i =>
    if crToNul b = 10 then
      ⟨(i : Int) + 1, SessionState.bannerReceived,
        some (acc.takeWhile (fun c => c ≠ 0))⟩
    else if i > 127 then
      ⟨0, SessionState.error, st.serverbanner⟩
    else
      bannerScan st (acc ++ [crToNul b]) rest (i + 1)

/-- `callback_receive_banner` (client.c): in any state other than
`SOCKET_CONNECTED` it returns `SSH_ERROR` without touching the
session; otherwise it scans the chunk for the banner line. -/
def callback_receive_banner (st : BannerState) (data : List Byte) : BannerResult :=
  if st.session_state ≠ SessionState.socketConnected then
    ⟨SSH_ERROR, st.session_state, st.serverbanner⟩
  else
    bannerScan st [] data 0

/-- Index of the first newline byte of a chunk, if any. -/
def firstNl : List Byte → Option Nat
  | [] => Option.none
  | b :: rest => if b = 10 then some 0 else (firstNl rest).map (· + 1)

theorem firstNl_nil : firstNl [] = Option.none := rfl

theorem firstNl_cons (b : Byte) (l : List Byte) :
    firstNl (b :: l) = if b = 10 then some 0 else (firstNl l).map (· + 1) := rfl

/-- If the chunk's first newline is at index `j` and the whole line fits
under the limit, the scan accepts: it consumes through the newline and
stores the processed line up to its first NUL (original NULs and CRs). -/
theorem bannerScan_accept (st : BannerState) :
    ∀ (data acc : List Byte) (i j : Nat), firstNl data = some j → i + j ≤ 128 →
      bannerScan st acc data i =
        ⟨(i : Int) + (j : Int) + 1, SessionState.bannerReceived,
          some ((acc ++ (data.take j).map crToNul).takeWhile (fun c => c ≠ 0))⟩ := by
  intro data
  induction data with
  | nil =>
    intro acc i j h _
    simp [firstNl] at h
  | cons b rest ih =>
    intro acc i j h hle
    rw [firstNl_cons] at h
    by_cases hb : b = 10
    · subst hb
      simp at h
      obtain rfl : j = 0 := by omega
      simp [bannerScan, crToNul]
    · simp only [if_neg hb, Option.map_eq_some'] at h
      obtain ⟨j', hj', rfl⟩ := h
      have hb' : crToNul b ≠ 10 := by
        by_cases hc : b = 13 <;> simp [crToNul, hc, hb]
      have hi : ¬ i > 127 := by omega
      rw [bannerScan, if_neg hb', if_neg hi]
      rw [ih (acc ++ [crToNul b]) (i + 1) j' hj' (by omega)]
      have harr : acc ++ [crToNul b] ++ (rest.take j').map crToNul =
          acc ++ ((b :: rest).take (j' + 1)).map crToNul := by
        simp [List.take_succ_cons, List.append_assoc]
      rw [harr]
      congr 1
      push_cast
      ring

/-- A chunk with no newline that stays within the 128-byte limit is
left unconsumed: nothing is stored and the session is untouched. -/
theorem bannerScan_incomplete (st : BannerState) :
    ∀ (data acc : List Byte) (i : Nat), firstNl data = Option.none →
      i + data.length ≤ 128 →
      bannerScan st acc data i = ⟨0, st.session_state, st.serverbanner⟩ := by
  intro data
  induction data with
  | nil => intro acc i _ _; rw [bannerScan]
  | cons b rest ih =>
    intro acc i h hle
    rw [firstNl_cons] at h
    by_cases hb : b = 10
    · simp [hb] at h
    · simp only [if_neg hb, Option.map_eq_none'] at h
      have hb' : crToNul b ≠ 10 := by
        by_cases hc : b = 13 <;> simp [crToNul, hc, hb]
      have hi : ¬ i > 127 := by
        simp only [List.length_cons] at hle; omega
      rw [bannerScan, if_neg hb', if_neg hi]
      exact ih _ (i + 1) h (by simp only [List.length_cons] at hle; omega)

/-- If the scan reaches an absolute index above 127 without having seen
a newline, the session enters the `ERROR` state and `0` is returned. -/
theorem bannerScan_oversize (st : BannerState) :
    ∀ (data acc : List Byte) (i : Nat), firstNl (data.take (129 - i)) = Option.none →
      129 ≤ i + data.length → i ≤ 128 →
      bannerScan st acc data i = ⟨0, SessionState.error, st.serverbanner⟩ := by
  intro data
  induction data with
  | nil =>
    intro acc i _ hlen hi
    simp only [List.length_nil, Nat.add_zero] at hlen
    omega
  | cons b rest ih =>
    intro acc i h hlen hi
    have htake : (b :: rest).take (129 - i) = b :: rest.take (128 - i) := by
      have : 129 - i = (128 - i) + 1 := by omega
      rw [this, List.take_succ_cons]
    rw [htake, firstNl_cons] at h
    by_cases hb : b = 10
    · simp [hb] at h
    · simp only [if_neg hb, Option.map_eq_none'] at h
      have hb' : crToNul b ≠ 10 := by
        by_cases hc : b = 13 <;> simp [crToNul, hc, hb]
      rw [bannerScan, if_neg hb']
      by_cases hgt : i > 127
      · rw [if_pos hgt]
      · rw [if_neg hgt]
        have h' : firstNl (rest.take (129 - (i + 1))) = Option.none := by
          have : 129 - (i + 1) = 128 - i := by omega
          rw [this]; exact h
        refine ih _ (i + 1) h' ?_ (by omega)
        simp only [List.length_cons] at hlen
        omega

/-- Claim C9 (confirmed): the banner callback never consumes past the
first newline.  When the first newline is at index `j ≤ 128` the
return value is `j + 1` (bytes consumed through the newline); when the
chunk holds no newline and is still within the 128-byte limit the
callback returns `0`, consuming nothing and leaving the session state
and stored banner unchanged, so a split banner is re-presented whole
on the next invocation. -/
theorem C9_banner_partial_consumption (st : BannerState) (data : List Byte) (j : Nat)
    (hst : st.session_state = SessionState.socketConnected) :
    (firstNl data = some j → j ≤ 128 →
      (callback_receive_banner st data).ret = (j : Int) + 1) ∧
    (firstNl data = Option.none → data.length ≤ 128 →
      callback_receive_banner st data = ⟨0, st.session_state, st.serverbanner⟩) := by
  constructor
  · intro hnl hj
    rw [callback_receive_banner, if_neg (by simp [hst])]
    rw [bannerScan_accept st data [] 0 j hnl (by omega)]
    simp
  · intro hnl hlen
    rw [callback_receive_banner, if_neg (by simp [hst])]
    exact bannerScan_incomplete st data [] 0 hnl (by omega)

/-- Witness for C9 at the chunks `"SH\r\n"` (newline at index 3) and
`"SH"` (no newline, two bytes). -/
theorem C9_banner_partial_consumption_witness :
    (callback_receive_banner ⟨SessionState.socketConnected, Option.none⟩
        [83, 72, 13, 10]).ret = (3 : Int) + 1 ∧
    callback_receive_banner ⟨SessionState.socketConnected, Option.none⟩ [83, 72] =
      ⟨0, SessionState.socketConnected, Option.none⟩ := by
  exact ⟨(C9_banner_partial_consumption ⟨SessionState.socketConnected, Option.none⟩
      [83, 72, 13, 10] 3 rfl).1 (by decide) (by decide),
    (C9_banner_partial_consumption ⟨SessionState.socketConnected, Option.none⟩
      [83, 72] 0 rfl).2 (by decide) (by decide)⟩

set_option maxRecDepth 20000 in
/-- Counterexample to claim C2 as stated: the chunk of 128 `A` bytes
followed by a newline has no newline among its first 128 bytes, yet
the callback does not move the session to `ERROR` — it accepts the
banner (the newline at index 128 is examined before the length check
fires), so the claim's "first 128 bytes contain no newline implies
ERROR" half is false at this input. -/
theorem C2_banner_limit_cex :
    firstNl ((List.replicate 128 65 ++ [10]).take 128) = Option.none ∧
    (callback_receive_banner ⟨SessionState.socketConnected, Option.none⟩
        (List.replicate 128 65 ++ [10])).session_state ≠ SessionState.error ∧
    (callback_receive_banner ⟨SessionState.socketConnected, Option.none⟩
        (List.replicate 128 65 ++ [10])).session_state = SessionState.bannerReceived := by
  refine ⟨by decide, by decide, by decide⟩

/-- Claim C2 (amended): in state `SOCKET_CONNECTED`, if the first
newline of the chunk is at index `j ≤ 128`, the processed line (CRs
rewritten to NULs, truncated at the first NUL) is stored as the server
banner and the state becomes `BANNER_RECEIVED` with `j + 1` bytes
consumed; if the first 129 bytes of the chunk (indices 0 through 128)
contain no newline, the state becomes `ERROR` with a fatal error and
nothing consumed.  (The claim as frozen drew the fatal boundary one
byte early, at the first 128 bytes.) -/
theorem C2_banner_limit_amended (st : BannerState) (data : List Byte) (j : Nat)
    (hst : st.session_state = SessionState.socketConnected) :
    (firstNl data = some j → j ≤ 128 →
      callback_receive_banner st data =
        ⟨(j : Int) + 1, SessionState.bannerReceived,
          some (((data.take j).map crToNul).takeWhile (fun c => c ≠ 0))⟩) ∧
    (firstNl (data.take 129) = Option.none → 129 ≤ data.length →
      callback_receive_banner st data = ⟨0, SessionState.error, st.serverbanner⟩) := by
  constructor
  · intro hnl hj
    rw [callback_receive_banner, if_neg (by simp [hst])]
    rw [bannerScan_accept st data [] 0 j hnl (by omega)]
    simp
  · intro hnl hlen
    rw [callback_receive_banner, if_neg (by simp [hst])]
    exact bannerScan_oversize st data [] 0 (by simpa using hnl) (by omega) (by omega)

set_option maxRecDepth 20000 in
/-- Witness for the amended C2: the four-byte banner `"SH\r\n"` is
accepted with the CR stripped, and 130 `A` bytes with no newline drive
the session to `ERROR`. -/
theorem C2_banner_limit_amended_witness :
    callback_receive_banner ⟨SessionState.socketConnected, Option.none⟩
        [83, 72, 13, 10] =
      ⟨(3 : Int) + 1, SessionState.bannerReceived, some [83, 72]⟩ ∧
    callback_receive_banner ⟨SessionState.socketConnected, Option.none⟩
        (List.replicate 130 65) =
      ⟨0, SessionState.error, Option.none⟩ := by
  constructor
  · have h := (C2_banner_limit_amended ⟨SessionState.socketConnected, Option.none⟩
      [83, 72, 13, 10] 3 rfl).1 (by decide) (by decide)
    simpa using h
  · exact (C2_banner_limit_amended ⟨SessionState.socketConnected, Option.none⟩
      (List.replicate 130 65) 0 rfl).2 (by decide) (by decide)

/-! ## Diffie-Hellman key exchange handlers
(`ssh_packet_dh_reply`, `ssh_packet_newkeys`)

Cryptographic contexts are abstract identifiers (`Nat`); `crypto_new`
draws a fresh identifier from the session's counter.  The calls into
crypto primitives (`dh_import_f`, `dh_build_k`, `make_sessionid`,
`crypt_set_algorithms`, `generate_session_keys`, `signature_verify`)
and allocations are oracles passed in as boolean records. -/

/-- The session fields read/written by the two key-exchange packet
handlers.  `out_newkeys` counts the `SSH2_MSG_NEWKEYS` messages handed
to `packet_send`; `crypto_ctr` feeds `crypto_new`. -/
structure KexSession where
  session_state : SessionState
  dh_handshake_state : DhState
  current_crypto : Option Nat
  next_crypto : Option Nat
  crypto_ctr : Nat
  server : Bool
  out_newkeys : Nat
  deriving DecidableEq, Repr

/-- Outcomes of the fallible sub-steps of `ssh_packet_dh_reply`:
the three `buffer_get_ssh_string` reads from the packet, the import of
`f`, the computation of `k`, and the `buffer_add_u8` for the outgoing
`NEWKEYS`. -/
structure DhReplyOutcomes where
  pubkey_ok : Bool
  f_ok : Bool
  f_import_ok : Bool
  signature_ok : Bool
  build_k_ok : Bool
  buffer_add_ok : Bool
  deriving DecidableEq, Repr

/-- `ssh_packet_dh_reply` (client.c): on the wrong state or any failed
sub-step the session enters `ERROR`; otherwise the handler queues and
sends the client's `NEWKEYS` (the `packet_send` return value is
ignored by the source) and moves the DH sub-state to `NEWKEYS_SENT`.
The cryptographic contexts are never touched. -/
def ssh_packet_dh_reply (s : KexSession) (o : DhReplyOutcomes) : KexSession :=
  if s.session_state ≠ SessionState.dh ∧ s.dh_handshake_state ≠ DhState.initSent then
    { s with session_state := SessionState.error }
  else if ¬ o.pubkey_ok then { s with session_state := SessionState.error }
  else if ¬ o.f_ok then { s with session_state := SessionState.error }
  else if ¬ o.f_import_ok then { s with session_state := SessionState.error }
  else if ¬ o.signature_ok then { s with session_state := SessionState.error }
  else if ¬ o.build_k_ok then { s with session_state := SessionState.error }
  else if ¬ o.buffer_add_ok then { s with session_state := SessionState.error }
  else
    { s with dh_handshake_state := DhState.newkeysSent,
             out_newkeys := s.out_newkeys + 1 }

/-- Outcomes of the fallible sub-steps of the client branch of
`ssh_packet_newkeys`. -/
structure NewkeysOutcomes where
  make_sessionid_ok : Bool
  crypt_set_algorithms_ok : Bool
  generate_session_keys_ok : Bool
  signature_verify_ok : Bool
  crypto_new_ok : Bool
  deriving DecidableEq, Repr

/-- `ssh_packet_newkeys` (client.c): after the state guard, the server
branch only marks the handshake finished; the client branch derives
the session id and keys, verifies the host-key signature over the
exchange hash, and only then swaps `next_crypto` into `current_crypto`
and allocates a fresh `next_crypto`.  Any failure jumps to the error
label, which records state `ERROR` (note that a failing `crypto_new`
strikes after the swap has already happened). -/
def ssh_packet_newkeys (s : KexSession) (o : NewkeysOutcomes) : KexSession :=
  if s.session_state ≠ SessionState.dh ∧ s.dh_handshake_state ≠ DhState.newkeysSent then
    { s with session_state := SessionState.error }
  else if s.server then
    { s with dh_handshake_state := DhState.finished }
  else if ¬ o.make_sessionid_ok then { s with session_state := SessionState.error }
  else if ¬ o.crypt_set_algorithms_ok then { s with session_state := SessionState.error }
  else if ¬ o.generate_session_keys_ok then { s with session_state := SessionState.error }
  else if ¬ o.signature_verify_ok then { s with session_state := SessionState.error }
  else if ¬ o.crypto_new_ok then
    { s with current_crypto := s.next_crypto,
             next_crypto := Option.none,
             session_state := SessionState.error }
  else
    { s with current_crypto := s.next_crypto,
             next_crypto := some s.crypto_ctr,
             crypto_ctr := s.crypto_ctr + 1,
             dh_handshake_state := DhState.finished }

/-- An observable step of the client's DH handshake: receipt of the
peer's `KEXDH_REPLY` or of the peer's `NEWKEYS`. -/
inductive KexEvent where
  | kexdhReply (o : DhReplyOutcomes)
  | newkeysRecv (o : NewkeysOutcomes)

/-- Dispatch of one received key-exchange message to its handler. -/
def kexStep (s : KexSession) : KexEvent → KexSession
  | KexEvent.kexdhReply o => ssh_packet_dh_reply s o
  | KexEvent.newkeysRecv o => ssh_packet_newkeys s o

/-- A run of the handshake: the handlers applied in message order. -/
def kexRun (s : KexSession) : List KexEvent → KexSession
  | [] => s
  | e :: es => kexRun (kexStep s e) es

/-- `ssh_packet_dh_reply` never touches the current crypto context. -/
theorem ssh_packet_dh_reply_current (s : KexSession) (o : DhReplyOutcomes) :
    (ssh_packet_dh_reply s o).current_crypto = s.current_crypto := by
  rw [ssh_packet_dh_reply]
  repeat' split
  all_goals rfl

/-- Claim C1 (confirmed): ordering of key activation.  First, in the
`KEXDH_REPLY` handler a client in DH state `INIT_SENT` whose sub-steps
succeed sends exactly one `NEWKEYS` and enters DH state
`NEWKEYS_SENT`, with `current_crypto` untouched.  Second, the only
step of a handshake run that ever replaces `current_crypto` is the
handler for the peer's `NEWKEYS`, and what it installs is the pending
`next_crypto`.  Third, over any run containing no peer-`NEWKEYS`
event, `current_crypto` is unchanged — the switch happens strictly
after the peer's `NEWKEYS` is received, never before. -/
theorem C1_key_activation_order :
    (∀ (s : KexSession) (o : DhReplyOutcomes),
      s.session_state = SessionState.dh → s.dh_handshake_state = DhState.initSent →
      o.pubkey_ok = true → o.f_ok = true → o.f_import_ok = true →
      o.signature_ok = true → o.build_k_ok = true → o.buffer_add_ok = true →
      (ssh_packet_dh_reply s o).dh_handshake_state = DhState.newkeysSent ∧
      (ssh_packet_dh_reply s o).out_newkeys = s.out_newkeys + 1 ∧
      (ssh_packet_dh_reply s o).current_crypto = s.current_crypto) ∧
    (∀ (s : KexSession) (e : KexEvent),
      (kexStep s e).current_crypto ≠ s.current_crypto →
      (∃ o, e = KexEvent.newkeysRecv o) ∧
      (kexStep s e).current_crypto = s.next_crypto) ∧
    (∀ (s : KexSession) (tr : List KexEvent),
      (∀ o, KexEvent.newkeysRecv o ∉ tr) →
      (kexRun s tr).current_crypto = s.current_crypto) := by
  refine ⟨?_, ?_, ?_⟩
  · intro s o hs hd hp hf hfi hsig hk hb
    rw [ssh_packet_dh_reply]
    rw [if_neg (by simp [hs]), if_neg (by simp [hp]), if_neg (by simp [hf]),
      if_neg (by simp [hfi]), if_neg (by simp [hsig]), if_neg (by simp [hk]),
      if_neg (by simp [hb])]
    exact ⟨rfl, rfl, rfl⟩
  · intro s e hne
    cases e with
    | kexdhReply o => exact absurd (ssh_packet_dh_reply_current s o) hne
    | newkeysRecv o =>
      refine ⟨⟨o, rfl⟩, ?_⟩
      revert hne
      show (ssh_packet_newkeys s o).current_crypto ≠ _ →
        (ssh_packet_newkeys s o).current_crypto = _
      rw [ssh_packet_newkeys]
      repeat' split
      all_goals intro hne
      all_goals first
        | rfl
        | exact absurd rfl hne
  · intro s tr
    induction tr generalizing s with
    | nil => intro _; rfl
    | cons e es ih =>
      intro hno
      rw [kexRun]
      rw [ih (kexStep s e) (fun o ho => hno o (List.mem_cons_of_mem _ ho))]
      cases e with
      | kexdhReply o => exact ssh_packet_dh_reply_current s o
      | newkeysRecv o => exact absurd (List.mem_cons_self _ _) (fun h => hno o h)

/-- Witness for C1: a concrete client session in the middle of the
handshake, an all-successful `KEXDH_REPLY`, and a run consisting of
one `KEXDH_REPLY` only. -/
theorem C1_key_activation_order_witness :
    ((ssh_packet_dh_reply
        ⟨SessionState.dh, DhState.initSent, Option.none, some 0, 1, false, 0⟩
        ⟨true, true, true, true, true, true⟩).dh_handshake_state = DhState.newkeysSent ∧
      (ssh_packet_dh_reply
        ⟨SessionState.dh, DhState.initSent, Option.none, some 0, 1, false, 0⟩
        ⟨true, true, true, true, true, true⟩).out_newkeys = 0 + 1 ∧
      (ssh_packet_dh_reply
        ⟨SessionState.dh, DhState.initSent, Option.none, some 0, 1, false, 0⟩
        ⟨true, true, true, true, true, true⟩).current_crypto = Option.none) ∧
    (kexRun ⟨SessionState.dh, DhState.initSent, Option.none, some 0, 1, false, 0⟩
        [KexEvent.kexdhReply ⟨true, true, true, true, true, true⟩]).current_crypto =
      Option.none := by
  constructor
  · exact C1_key_activation_order.1
      ⟨SessionState.dh, DhState.initSent, Option.none, some 0, 1, false, 0⟩
      ⟨true, true, true, true, true, true⟩ rfl rfl rfl rfl rfl rfl rfl rfl
  · exact C1_key_activation_order.2.2
      ⟨SessionState.dh, DhState.initSent, Option.none, some 0, 1, false, 0⟩
      [KexEvent.kexdhReply ⟨true, true, true, true, true, true⟩]
      (by intro o h; simp at h)

/-- Claim C3 (confirmed): in the client's `NEWKEYS` handler, a failed
host-key signature verification (after the preceding derivation steps
succeeded) sets the session state to `ERROR` and aborts the handshake:
the crypto contexts are not swapped and the DH sub-state stays at
`NEWKEYS_SENT`, never reaching `FINISHED` in that call. -/
theorem C3_signature_failure_aborts (s : KexSession) (o : NewkeysOutcomes)
    (hsrv : s.server = false)
    (hs : s.session_state = SessionState.dh)
    (hd : s.dh_handshake_state = DhState.newkeysSent)
    (h1 : o.make_sessionid_ok = true)
    (h2 : o.crypt_set_algorithms_ok = true)
    (h3 : o.generate_session_keys_ok = true)
    (hsig : o.signature_verify_ok = false) :
    (ssh_packet_newkeys s o).session_state = SessionState.error ∧
    (ssh_packet_newkeys s o).current_crypto = s.current_crypto ∧
    (ssh_packet_newkeys s o).next_crypto = s.next_crypto ∧
    (ssh_packet_newkeys s o).dh_handshake_state = DhState.newkeysSent ∧
    (ssh_packet_newkeys s o).dh_handshake_state ≠ DhState.finished := by
  rw [ssh_packet_newkeys]
  rw [if_neg (by simp [hs]), if_neg (by simp [hsrv]), if_neg (by simp [h1]),
    if_neg (by simp [h2]), if_neg (by simp [h3]), if_pos (by simp [hsig])]
  exact ⟨rfl, rfl, rfl, hd, by rw [hd]; intro h; cases h⟩

/-- Witness for C3: a concrete client session awaiting the peer's
`NEWKEYS` whose signature verification fails. -/
theorem C3_signature_failure_aborts_witness :
    (ssh_packet_newkeys
        ⟨SessionState.dh, DhState.newkeysSent, some 0, some 1, 2, false, 1⟩
        ⟨true, true, true, false, true⟩).session_state = SessionState.error ∧
    (ssh_packet_newkeys
        ⟨SessionState.dh, DhState.newkeysSent, some 0, some 1, 2, false, 1⟩
        ⟨true, true, true, false, true⟩).current_crypto = some 0 ∧
    (ssh_packet_newkeys
        ⟨SessionState.dh, DhState.newkeysSent, some 0, some 1, 2, false, 1⟩
        ⟨true, true, true, false, true⟩).next_crypto = some 1 ∧
    (ssh_packet_newkeys
        ⟨SessionState.dh, DhState.newkeysSent, some 0, some 1, 2, false, 1⟩
        ⟨true, true, true, false, true⟩).dh_handshake_state = DhState.newkeysSent ∧
    (ssh_packet_newkeys
        ⟨SessionState.dh, DhState.newkeysSent, some 0, some 1, 2, false, 1⟩
        ⟨true, true, true, false, true⟩).dh_handshake_state ≠ DhState.finished :=
  C3_signature_failure_aborts
    ⟨SessionState.dh, DhState.newkeysSent, some 0, some 1, 2, false, 1⟩
    ⟨true, true, true, false, true⟩ rfl rfl rfl rfl rfl rfl rfl

/-! ## Connection progress callback (`ssh_client_connection_callback`)

The stepping function invoked after every completed connection step.
The build has neither `WITH_SSH1` nor `WITH_PCAP` defined, so the
SSH-1 branches are absent.  Logging, the status callback and the
packet-callback registration have no observable effect on the fields
below and are omitted. -/

/-- The session fields read/written by the connection callback and by
the `dh_handshake` stepping function it calls. -/
structure ConnSession where
  session_state : SessionState
  dh_handshake_state : DhState
  serverbanner_present : Bool
  version : Nat
  opt_ssh2 : Bool
  opt_ssh1 : Bool
  alive : Nat
  connected : Bool
  socket_open : Bool
  deriving DecidableEq, Repr

/-- Outcomes of the fallible sub-steps of `dh_handshake` in its
`DH_STATE_INIT` arm. -/
structure DhHandshakeOutcomes where
  buffer_add_ok : Bool
  generate_x_ok : Bool
  generate_e_ok : Bool
  get_e_ok : Bool
  add_string_ok : Bool
  packet_send_ok : Bool
  deriving DecidableEq, Repr

/-- `dh_handshake` (client.c): from `DH_STATE_INIT` it queues and
sends `KEXDH_INIT` (any failure returns `SSH_ERROR`), then falls
through to `DH_STATE_INIT_SENT` and waits (`SSH_AGAIN`); the waiting
states return `SSH_AGAIN`; `DH_STATE_FINISHED` returns `SSH_OK`. -/
def dh_handshake (s : ConnSession) (o : DhHandshakeOutcomes) : ConnSession × Int :=
  match s.dh_handshake_state with
  | DhState.init =>
    if ¬ o.buffer_add_ok then (s, SSH_ERROR)
    else if ¬ o.generate_x_ok then (s, SSH_ERROR)
    else if ¬ o.generate_e_ok then (s, SSH_ERROR)
    else if ¬ o.get_e_ok then (s, SSH_ERROR)
    else if ¬ o.add_string_ok then (s, SSH_ERROR)
    else if ¬ o.packet_send_ok then (s, SSH_ERROR)
    else ({ s with dh_handshake_state := DhState.initSent }, SSH_AGAIN)
  | DhState.initSent => (s, SSH_AGAIN)
  | DhState.newkeysSent => (s, SSH_AGAIN)
  | DhState.finished => (s, SSH_OK)

/-- Outcomes of the collaborator calls made by the connection
callback: banner analysis (and the protocol versions it reports),
key-exchange list agreement, sending of the own KEXINIT, and the DH
sub-steps. -/
structure ConnOutcomes where
  analyze_banner_ok : Bool
  banner_ssh1 : Bool
  banner_ssh2 : Bool
  set_kex_ok : Bool
  send_kex_ok : Bool
  dhhs : DhHandshakeOutcomes
  deriving DecidableEq, Repr

/-- The `error:` label of `ssh_client_connection_callback`: close the
socket, clear the alive flag, enter the `ERROR` state. -/
def connError (s : ConnSession) : ConnSession :=
  { s with socket_open := false, alive := 0,
           session_state := SessionState.error }

/-- The `SSH_SESSION_STATE_DH` arm (also reached by fallthrough from
the `KEXINIT_RECEIVED` arm): once the DH sub-machine reports
`FINISHED`, mark the session connected and enter `AUTHENTICATING`. -/
def connDhArm (s : ConnSession) : ConnSession :=
  if s.dh_handshake_state = DhState.finished then
    { s with connected := true, session_state := SessionState.authenticating }
  else s

/-- `ssh_client_connection_callback` (client.c).  The `BANNER_RECEIVED`
arm analyzes the banner and picks a protocol version (only SSH-2 is
compiled in; every other combination jumps to `error:`); the
`KEXINIT_RECEIVED` arm agrees on algorithms, sends the own KEXINIT,
enters state `DH`, launches `dh_handshake` and on its `SSH_ERROR`
jumps to `error:`, otherwise falls through into the `DH` arm (the
source has no `break` there); the `ERROR` arm jumps to `error:`; the
remaining states only wait (the `default:` arm records a message but
changes nothing). -/
def ssh_client_connection_callback (s : ConnSession) (o : ConnOutcomes) : ConnSession :=
  match s.session_state with
  | SessionState.none_ => s
  | SessionState.connecting => s
  | SessionState.socketConnected => s
  | SessionState.bannerReceived =>
    if ¬ s.serverbanner_present then connError s
    else if ¬ o.analyze_banner_ok then connError s
    else if o.banner_ssh2 ∧ s.opt_ssh2 then
      { s with version := 2, session_state := SessionState.initialKex }
    else connError s
  | SessionState.initialKex => s
  | SessionState.kexinitReceived =>
    if ¬ o.set_kex_ok then connError s
    else if ¬ o.send_kex_ok then connError s
    else if (dh_handshake { s with session_state := SessionState.dh } o.dhhs).2 = SSH_ERROR then
      connError (dh_handshake { s with session_state := SessionState.dh } o.dhhs).1
    else connDhArm (dh_handshake { s with session_state := SessionState.dh } o.dhhs).1
  | SessionState.dh => connDhArm s
  | SessionState.authenticating => s
  | SessionState.authenticated => s
  | SessionState.disconnected => s
  | SessionState.error => connError s

/-- The failure conditions of a connection step, as enumerated by the
source: a missing or unanalyzable banner, no mutually usable protocol
version, key-exchange agreement or send failure, a DH handshake error,
or being called in the `ERROR` state. -/
def connStepFails (s : ConnSession) (o : ConnOutcomes) : Prop :=
  (s.session_state = SessionState.bannerReceived ∧
    (¬ s.serverbanner_present = true ∨ ¬ o.analyze_banner_ok = true ∨
      ¬ (o.banner_ssh2 = true ∧ s.opt_ssh2 = true))) ∨
  (s.session_state = SessionState.kexinitReceived ∧
    (¬ o.set_kex_ok = true ∨ ¬ o.send_kex_ok = true ∨
      (dh_handshake { s with session_state := SessionState.dh } o.dhhs).2 = SSH_ERROR)) ∨
  s.session_state = SessionState.error

instance (s : ConnSession) (o : ConnOutcomes) : Decidable (connStepFails s o) := by
  unfold connStepFails; infer_instance

/-- Claim C4 (confirmed): every failure of a connection step — banner
analysis failure, no usable protocol version, key-exchange agreement
failure, a DH handshake error, or entry in the `ERROR` state — lands
in the same terminal outcome: the socket is closed, the alive flag is
cleared, and the session state is `ERROR`. -/
theorem C4_error_path_invariant (s : ConnSession) (o : ConnOutcomes)
    (hf : connStepFails s o) :
    (ssh_client_connection_callback s o).socket_open = false ∧
    (ssh_client_connection_callback s o).alive = 0 ∧
    (ssh_client_connection_callback s o).session_state = SessionState.error := by
  have herr : ∃ t, ssh_client_connection_callback s o = connError t := by
    obtain ⟨sst, sdh, sbp, sv, so2, so1, sal, scn, sso⟩ := s
    rcases hf with ⟨hst, hcase⟩ | ⟨hst, hcase⟩ | hst
    all_goals simp only at hst
    all_goals subst hst
    all_goals simp only [ssh_client_connection_callback]
    · split_ifs with h1 h2 h3
      · rcases hcase with h | h | h <;> simp_all
      · exact ⟨_, rfl⟩
      · exact ⟨_, rfl⟩
      · exact ⟨_, rfl⟩
    · split_ifs with h1 h2 h3
      · exact ⟨_, rfl⟩
      · rcases hcase with h | h | h <;> simp_all
      · exact ⟨_, rfl⟩
      · exact ⟨_, rfl⟩
    · exact ⟨_, rfl⟩
  obtain ⟨t, ht⟩ := herr
  rw [ht]
  exact ⟨rfl, rfl, rfl⟩

/-- Witness for C4: a session in state `KEXINIT_RECEIVED` whose
`KEXDH_INIT` send fails (the DH handshake reports `SSH_ERROR`). -/
theorem C4_error_path_invariant_witness :
    connStepFails
      ⟨SessionState.kexinitReceived, DhState.init, true, 0, true, false, 1, false, true⟩
      ⟨true, false, true, true, true, ⟨true, true, true, true, true, false⟩⟩ ∧
    (ssh_client_connection_callback
      ⟨SessionState.kexinitReceived, DhState.init, true, 0, true, false, 1, false, true⟩
      ⟨true, false, true, true, true, ⟨true, true, true, true, true, false⟩⟩).socket_open = false ∧
    (ssh_client_connection_callback
      ⟨SessionState.kexinitReceived, DhState.init, true, 0, true, false, 1, false, true⟩
      ⟨true, false, true, true, true, ⟨true, true, true, true, true, false⟩⟩).alive = 0 ∧
    (ssh_client_connection_callback
      ⟨SessionState.kexinitReceived, DhState.init, true, 0, true, false, 1, false, true⟩
      ⟨true, false, true, true, true, ⟨true, true, true, true, true, false⟩⟩).session_state =
      SessionState.error :=
  ⟨by decide,
    C4_error_path_invariant
      ⟨SessionState.kexinitReceived, DhState.init, true, 0, true, false, 1, false, true⟩
      ⟨true, false, true, true, true, ⟨true, true, true, true, true, false⟩⟩ (by decide)⟩

/-! ## Connect with deadline (`ssh_connect`, `ssh_connect_ai_timeout`)

`ssh_connect`'s tail (from the `pending:` label) drives
`ssh_handle_packets_termination` until `ssh_connect_termination`
holds or the timeout elapses.  The packet pump is an oracle: its only
observable effect here is the session state it leaves behind. -/

/-- The `pending_call_state` values used by `ssh_connect`. -/
inductive PendingCall where
  | none_
  | connect
  deriving DecidableEq, Repr

/-- `ssh_connect_termination` (client.c): the session states under
which `ssh_connect` may stop pumping packets. -/
def ssh_connect_termination (st : SessionState) : Bool :=
  match st with
  | SessionState.error => true
  | SessionState.authenticating => true
  | SessionState.disconnected => true
  | _ => false

/-- The observable outcome of `ssh_connect`: final session state,
final pending-call marker, and the C return value. -/
structure ConnectResult where
  session_state : SessionState
  pending_call_state : PendingCall
  rc : Int
  deriving DecidableEq, Repr

/-- The tail of `ssh_connect` (client.c), from the `pending:` label:
mark the call pending, pump packets (for the blocking variant with the
session timeout, else with a zero timeout); a blocking call that still
has not terminated records a fatal "Timeout connecting" error and
forces the session state to `ERROR`; a nonblocking call that has not
terminated returns `SSH_AGAIN` with the pending marker kept; otherwise
the pending marker is cleared and the return value is `SSH_ERROR`
exactly when the final state is `ERROR` or `DISCONNECTED`.
`state_after_pump` is the session state the packet-pump oracle leaves
behind. -/
def ssh_connect_pending (blocking : Bool) (state_after_pump : SessionState) :
    ConnectResult :=
  if blocking then
    let st := if ssh_connect_termination state_after_pump then state_after_pump
              else SessionState.error
    ⟨st, PendingCall.none_,
      if st = SessionState.error ∨ st = SessionState.disconnected then SSH_ERROR
      else SSH_OK⟩
  else
    if ¬ ssh_connect_termination state_after_pump then
      ⟨state_after_pump, PendingCall.connect, SSH_AGAIN⟩
    else
      ⟨state_after_pump, PendingCall.none_,
        if state_after_pump = SessionState.error ∨
            state_after_pump = SessionState.disconnected then SSH_ERROR
        else SSH_OK⟩

/-- The observable outcome of `ssh_connect_ai_timeout`: whether the
socket was closed and the C return value (`-1` or the connected
socket). -/
structure AiTimeoutResult where
  socket_closed : Bool
  ret : Int
  deriving DecidableEq, Repr

/-- The outcome of the `ssh_poll` call inside
`ssh_connect_ai_timeout`: `0` is a timeout, a negative value a poll
error, otherwise the descriptor is writable and `connect(2)`'s result
is fetched with `getsockopt(SO_ERROR)`. -/
inductive PollOutcome where
  | timeout
  | pollError
  | ready (so_error : Nat)
  deriving DecidableEq, Repr

/-- `ssh_connect_ai_timeout` (connect.c): a poll timeout or error, or
a nonzero `SO_ERROR`, each record a fatal error, close the socket and
return `-1`; otherwise the connected socket is returned. -/
def ssh_connect_ai_timeout (poll : PollOutcome) (s : Int) : AiTimeoutResult :=
  match poll with
  | PollOutcome.timeout => ⟨true, -1⟩
  | PollOutcome.pollError => ⟨true, -1⟩
  | PollOutcome.ready so_error =>
    if so_error ≠ 0 then ⟨true, -1⟩ else ⟨false, s⟩

/-- Counterexample to claim C5 as stated: a blocking `ssh_connect`
whose timeout elapses while the session is still `CONNECTING` does
not return the try-again status and does not leave the session
intact — it forces the session state to `ERROR` and returns
`SSH_ERROR`, a hard failure distinct from `SSH_AGAIN`. -/
theorem C5_timeout_cex :
    ssh_connect_termination SessionState.connecting = false ∧
    (ssh_connect_pending true SessionState.connecting).rc = SSH_ERROR ∧
    (ssh_connect_pending true SessionState.connecting).session_state =
      SessionState.error ∧
    SSH_ERROR ≠ SSH_AGAIN := by
  refine ⟨rfl, rfl, rfl, by decide⟩

/-- Claim C5 (amended): only the nonblocking `ssh_connect` maps an
incomplete connection to the distinct try-again status: it returns
`SSH_AGAIN`, leaves the session state untouched and keeps the call
pending.  A blocking `ssh_connect` whose timeout elapses before
termination is a hard failure — the session state is forced to
`ERROR` and `SSH_ERROR` is returned — and a timeout inside
`ssh_connect_ai_timeout` likewise closes the socket and returns `-1`
rather than a retry status. -/
theorem C5_timeout_amended (st : SessionState) (s : Int)
    (hterm : ssh_connect_termination st = false) :
    ssh_connect_pending false st = ⟨st, PendingCall.connect, SSH_AGAIN⟩ ∧
    ssh_connect_pending true st =
      ⟨SessionState.error, PendingCall.none_, SSH_ERROR⟩ ∧
    ssh_connect_ai_timeout PollOutcome.timeout s = ⟨true, -1⟩ := by
  refine ⟨?_, ?_, rfl⟩
  · rw [ssh_connect_pending, if_neg (by simp)]
    rw [if_pos (by simp [hterm])]
  · rw [ssh_connect_pending, if_pos rfl]
    simp [hterm, SSH_ERROR, SSH_OK]

/-- Witness for the amended C5 at the `CONNECTING` state and socket
descriptor `7`. -/
theorem C5_timeout_amended_witness :
    ssh_connect_termination SessionState.connecting = false ∧
    ssh_connect_pending false SessionState.connecting =
      ⟨SessionState.connecting, PendingCall.connect, SSH_AGAIN⟩ ∧
    ssh_connect_pending true SessionState.connecting =
      ⟨SessionState.error, PendingCall.none_, SSH_ERROR⟩ ∧
    ssh_connect_ai_timeout PollOutcome.timeout 7 = ⟨true, -1⟩ :=
  ⟨rfl, C5_timeout_amended SessionState.connecting 7 rfl⟩

/-! ## Channel/descriptor multiplexing (`ssh_select`)

Descriptor sets are lists of descriptor numbers; the two `select(2)`
syscalls are oracles: the zero-timeout one yields the set of user
descriptors immediately readable (or an error), the blocking one
yields an interruption, an error, or the set of readable descriptors. -/

/-- The per-channel data `ssh_select` reads: the owning session's
alive flag and socket descriptor, and the two `ssh_channel_poll`
results (buffered stdout and stderr bytes). -/
structure SelChannel where
  alive : Bool
  fd : Nat
  poll_stdout : Int
  poll_stderr : Int
  deriving DecidableEq, Repr

/-- Outcome of the blocking `select(2)` call. -/
inductive SelectOutcome where
  | eintr
  | selError
  | ready (fds : List Nat)
  deriving DecidableEq, Repr

/-- The outputs of `ssh_select`: the return value, the `outchannels`
array, and the rewritten user descriptor set. -/
structure SelResult where
  rc : Int
  outchannels : List SelChannel
  readfds : List Nat
  deriving DecidableEq, Repr

/-- A channel with already-buffered stdout or stderr data on an alive
session (the first polling loop of `ssh_select`). -/
def channelReady (c : SelChannel) : Bool :=
  c.alive ∧ (c.poll_stdout > 0 ∨ c.poll_stderr > 0)

/-- The `localset` of `ssh_select` after the zero-timeout select: the
user descriptors reported immediately readable (only consulted when
`maxfd > 0`). -/
def sel_localset (maxfd : Nat) (sel0 : Option (List Nat)) : List Nat :=
  if maxfd > 0 then sel0.getD [] else []

/-- The `(j != 0) || (set != 0)` test of `ssh_select`: some alive
channel has buffered data, or some user descriptor below `maxfd` was
immediately readable. -/
def sel_immediate (channels : List SelChannel) (maxfd : Nat)
    (sel0 : Option (List Nat)) : Bool :=
  (channels.filter channelReady).length ≠ 0 ∨
    (List.range maxfd).any (fun f => (sel_localset maxfd sel0).contains f)

/-- `ssh_select` (connect.c).  First the user's descriptors are
selected with a zero timeout (`sel0`; `Option.none` is a select error,
reported as `-1`) and every channel on an alive session is polled for
buffered stdout/stderr data.  If any channel or any user descriptor
below `maxfd` is ready, `0` is returned at once.  Only otherwise is
the blocking `select(2)` executed (`selB`): an `EINTR` interruption
returns the distinct `SSH_EINTR`, an error returns `-1`, and
otherwise the ready channels and the surviving user descriptors are
reported with return value `0`. -/
def ssh_select (channels : List SelChannel) (maxfd : Nat) (readfds : List Nat)
    (sel0 : Option (List Nat)) (selB : SelectOutcome) : SelResult :=
  if maxfd > 0 ∧ sel0 = Option.none then ⟨-1, [], readfds⟩
  else if sel_immediate channels maxfd sel0 then
    ⟨0, channels.filter channelReady,
      if maxfd > 0 then sel_localset maxfd sel0 else readfds⟩
  else
    match selB with
    | SelectOutcome.eintr => ⟨SSH_EINTR, [], readfds⟩
    | SelectOutcome.selError => ⟨-1, [], readfds⟩
    | SelectOutcome.ready fds =>
      ⟨0,
        channels.filter (fun c =>
          c.alive ∧ fds.contains c.fd ∧ (c.poll_stdout > 0 ∨ c.poll_stderr > 0)),
        (List.range maxfd).filter (fun f => readfds.contains f ∧ fds.contains f)⟩

/-- Claim C6 (confirmed): `ssh_select` performs a zero-timeout pass
first.  When some alive channel has buffered data or some user
descriptor is immediately ready, it returns `0` whatever the blocking
select would have produced (the blocking wait is not consulted); only
when nothing was immediately available does the blocking select run,
and its interruption by a signal yields the distinct `SSH_EINTR`,
which differs from `-1`. -/
theorem C6_zero_timeout_pass (channels : List SelChannel) (maxfd : Nat)
    (readfds ready0 : List Nat)
    (hnone : ¬ (maxfd > 0 ∧ (some ready0 : Option (List Nat)) = Option.none)) :
    (sel_immediate channels maxfd (some ready0) = true →
      ∀ selB selB' : SelectOutcome,
        (ssh_select channels maxfd readfds (some ready0) selB).rc = 0 ∧
        ssh_select channels maxfd readfds (some ready0) selB =
          ssh_select channels maxfd readfds (some ready0) selB') ∧
    (sel_immediate channels maxfd (some ready0) = false →
      (ssh_select channels maxfd readfds (some ready0) SelectOutcome.eintr).rc =
          SSH_EINTR ∧
        SSH_EINTR ≠ -1) := by
  constructor
  · intro hready selB selB'
    have hsel : ∀ sb : SelectOutcome,
        ssh_select channels maxfd readfds (some ready0) sb =
          ⟨0, channels.filter channelReady,
            if maxfd > 0 then sel_localset maxfd (some ready0) else readfds⟩ := by
      intro sb
      rw [ssh_select.eq_def, if_neg hnone, if_pos hready]
    rw [hsel selB, hsel selB']
    exact ⟨rfl, rfl⟩
  · intro hquiet
    have hq : ¬ (sel_immediate channels maxfd (some ready0) = true) := by
      simp [hquiet]
    rw [ssh_select.eq_def, if_neg hnone, if_neg hq]
    exact ⟨rfl, by decide⟩

/-- Witness for C6: one alive channel with one buffered stdout byte is
served in the zero-timeout pass even when the blocking select would
error, and with no channel and no ready descriptor an interrupted
blocking select yields `SSH_EINTR`. -/
theorem C6_zero_timeout_pass_witness :
    ((ssh_select [⟨true, 4, 1, 0⟩] 1 [0] (some []) SelectOutcome.selError).rc = 0 ∧
      ssh_select [⟨true, 4, 1, 0⟩] 1 [0] (some []) SelectOutcome.selError =
        ssh_select [⟨true, 4, 1, 0⟩] 1 [0] (some []) SelectOutcome.eintr) ∧
    ((ssh_select [] 1 [0] (some []) SelectOutcome.eintr).rc = SSH_EINTR ∧
      SSH_EINTR ≠ -1) :=
  ⟨(C6_zero_timeout_pass [⟨true, 4, 1, 0⟩] 1 [0] [] (by decide)).1
      (by decide) SelectOutcome.selError SelectOutcome.eintr,
    (C6_zero_timeout_pass [] 1 [0] [] (by decide)).2 (by decide)⟩

/-! ## Service requests (`ssh_service_request`,
`ssh_packet_service_accept`)

The session-global correlator for `SSH2_MSG_SERVICE_REQUEST`. -/

/-- The `SSH_AUTH_SERVICE_*` enumeration (`auth_service_state`). -/
inductive AuthSvcState where
  | none_
  | denied
  | accepted
  | sent
  | userSent
  deriving DecidableEq, Repr

/-- The session fields read/written by the service-request correlator;
`service_requests_sent` counts the successfully handed-off
`SERVICE_REQUEST` messages. -/
structure SvcSession where
  auth_service_state : AuthSvcState
  service_requests_sent : Nat
  deriving DecidableEq, Repr

/-- Outcomes of the fallible sub-steps of `ssh_service_request` in the
`NONE` arm: the buffer appends, the service-name allocation and
`packet_send`. -/
structure SvcOutcomes where
  buffer_add_u8_ok : Bool
  string_from_char_ok : Bool
  buffer_add_string_ok : Bool
  packet_send_ok : Bool
  deriving DecidableEq, Repr

/-- `ssh_service_request` (client.c): from `NONE` it appends and sends
one `SERVICE_REQUEST`, moves to `SENT` and returns `SSH_AGAIN` (any
sub-step failure returns `SSH_ERROR` with the state unchanged); in
`SENT` it returns `SSH_AGAIN` without sending; in `ACCEPTED` it
returns `SSH_OK`; in `DENIED` it records a fatal error and returns
`SSH_ERROR`; the SSH-1-only `USER_SENT` state returns `SSH_ERROR`. -/
def ssh_service_request (s : SvcSession) (o : SvcOutcomes) : SvcSession × Int :=
  match s.auth_service_state with
  | AuthSvcState.none_ =>
    if ¬ o.buffer_add_u8_ok then (s, SSH_ERROR)
    else if ¬ o.string_from_char_ok then (s, SSH_ERROR)
    else if ¬ o.buffer_add_string_ok then (s, SSH_ERROR)
    else if ¬ o.packet_send_ok then (s, SSH_ERROR)
    else ({ auth_service_state := AuthSvcState.sent,
            service_requests_sent := s.service_requests_sent + 1 }, SSH_AGAIN)
  | AuthSvcState.denied => (s, SSH_ERROR)
  | AuthSvcState.accepted => (s, SSH_OK)
  | AuthSvcState.sent => (s, SSH_AGAIN)
  | AuthSvcState.userSent => (s, SSH_ERROR)

/-- `ssh_packet_service_accept` (client.c): unconditionally moves the
correlator to `ACCEPTED`. -/
def ssh_packet_service_accept (s : SvcSession) : SvcSession :=
  { s with auth_service_state := AuthSvcState.accepted }

/-- Claim C7 (confirmed): the correlator admits one in-flight service
request.  From `NONE` with successful sub-steps exactly one message is
sent, the state moves to `SENT` and `SSH_AGAIN` is returned; a second
call in `SENT` returns `SSH_AGAIN` without sending or changing
anything; once `ssh_packet_service_accept` has moved the state to
`ACCEPTED`, the call returns `SSH_OK` (again sending nothing); in
`DENIED` it returns `SSH_ERROR` untouched. -/
theorem C7_single_service_request (s : SvcSession) (o o' : SvcOutcomes)
    (hok : o.buffer_add_u8_ok = true ∧ o.string_from_char_ok = true ∧
      o.buffer_add_string_ok = true ∧ o.packet_send_ok = true) :
    (s.auth_service_state = AuthSvcState.none_ →
      ssh_service_request s o =
        (⟨AuthSvcState.sent, s.service_requests_sent + 1⟩, SSH_AGAIN)) ∧
    (s.auth_service_state = AuthSvcState.sent →
      ssh_service_request s o' = (s, SSH_AGAIN)) ∧
    ssh_service_request (ssh_packet_service_accept s) o' =
      (ssh_packet_service_accept s, SSH_OK) ∧
    (s.auth_service_state = AuthSvcState.denied →
      ssh_service_request s o' = (s, SSH_ERROR)) := by
  obtain ⟨h1, h2, h3, h4⟩ := hok
  refine ⟨?_, ?_, rfl, ?_⟩
  · intro hst
    rw [ssh_service_request.eq_def, hst]
    simp [h1, h2, h3, h4]
  · intro hst
    rw [ssh_service_request.eq_def, hst]
  · intro hst
    rw [ssh_service_request.eq_def, hst]

/-- Witness for C7: a fresh correlator with all sends succeeding, then
the post-send and the denied correlators. -/
theorem C7_single_service_request_witness :
    (ssh_service_request ⟨AuthSvcState.none_, 0⟩ ⟨true, true, true, true⟩ =
      (⟨AuthSvcState.sent, 0 + 1⟩, SSH_AGAIN)) ∧
    (ssh_service_request ⟨AuthSvcState.sent, 1⟩ ⟨true, true, true, true⟩ =
      (⟨AuthSvcState.sent, 1⟩, SSH_AGAIN)) ∧
    (ssh_service_request (ssh_packet_service_accept ⟨AuthSvcState.sent, 1⟩)
        ⟨true, true, true, true⟩ =
      (ssh_packet_service_accept ⟨AuthSvcState.sent, 1⟩, SSH_OK)) ∧
    (ssh_service_request ⟨AuthSvcState.denied, 1⟩ ⟨true, true, true, true⟩ =
      (⟨AuthSvcState.denied, 1⟩, SSH_ERROR)) :=
  ⟨(C7_single_service_request ⟨AuthSvcState.none_, 0⟩
      ⟨true, true, true, true⟩ ⟨true, true, true, true⟩
      ⟨rfl, rfl, rfl, rfl⟩).1 rfl,
    (C7_single_service_request ⟨AuthSvcState.sent, 1⟩
      ⟨true, true, true, true⟩ ⟨true, true, true, true⟩
      ⟨rfl, rfl, rfl, rfl⟩).2.1 rfl,
    (C7_single_service_request ⟨AuthSvcState.sent, 1⟩
      ⟨true, true, true, true⟩ ⟨true, true, true, true⟩
      ⟨rfl, rfl, rfl, rfl⟩).2.2.1,
    (C7_single_service_request ⟨AuthSvcState.denied, 1⟩
      ⟨true, true, true, true⟩ ⟨true, true, true, true⟩
      ⟨rfl, rfl, rfl, rfl⟩).2.2.2 rfl⟩

/-! ## Host-key verification UI (`SSHTerminal::verifyKnownHost`)

The plugin-side wrapper around `isServerKnown`.  Its observable
outputs are the return code, the `error` reference parameter, and the
text written to `stderr`.  `hexa` is the hex rendering of the public
key hash; `error0` is the caller's incoming value of the `error`
parameter, `session_err` the session's error string. -/

/-- The `isServerKnown` results switched on by `verifyKnownHost`. -/
inductive ServerKnown where
  | knownOk
  | knownChanged
  | foundOther
  | fileNotFound
  | notKnown
  | serverError
  deriving DecidableEq, Repr

/-- The outputs of `verifyKnownHost`. -/
structure VerifyOut where
  retCode : Int
  errorMsg : String
  stderrOut : String
  deriving DecidableEq, Repr

/-- The `stderr` text of the `SSH_SERVER_KNOWN_CHANGED` case. -/
def changed_stderr_text (hexa : String) : String :=
  "Host key for server changed : server\x27s one is now :\n" ++
    "Public key hash is " ++ hexa ++ "\n" ++
    "For security reason, connection will be stopped\n"

/-- The `error` text of the `SSH_SERVER_KNOWN_CHANGED` case (the
source uses "Public key hash: " here, unlike its `stderr` line). -/
def changed_error_text (hexa : String) : String :=
  "Host key for server changed : server\x27s one is now :\n" ++
    "Public key hash: " ++ hexa ++ "\n" ++
    "For security reason, connection will be stopped\n"

/-- The text of the `SSH_SERVER_FOUND_OTHER` case (identical on
`stderr` and in `error`). -/
def found_other_text : String :=
  "The host key for this server was not found but an other type of key exists.\n" ++
    "An attacker might change the default server key to confuse your client" ++
    "into thinking the key does not exist\n" ++
    "We advise you to rerun the client with -d or -r for more safety.\n"

/-- The text of the `SSH_SERVER_FILE_NOT_FOUND` case (identical on
`stderr` and in `error`). -/
def file_not_found_text : String :=
  "Could not find known host file. If you accept the host key here,\n" ++
    "the file will be automatically created.\n"

/-- The `stderr` text of the `SSH_SERVER_NOT_KNOWN` case. -/
def not_known_stderr_text (hexa : String) : String :=
  "The server is unknown.\n" ++
    "Public key hash is " ++ hexa ++ "\n" ++
    "Do you trust the host key (yes/no)? "

/-- The `error` text of the `SSH_SERVER_NOT_KNOWN` case. -/
def not_known_error_text (hexa : String) : String :=
  "The server is unknown.\n" ++
    "Public key hash is " ++ hexa ++ "\n" ++
    "Do you trust the host key?"

/-- `SSHTerminal::verifyKnownHost` (SSHTerminal.cpp).  Return codes:
`0` known host, `1` unknown host, `-1` error.  The
`SSH_SERVER_FILE_NOT_FOUND` case has no `break`: after printing and
assigning its own message it falls through into the
`SSH_SERVER_NOT_KNOWN` case, whose `error = ...` assignment (not an
append) replaces the file-not-found text in the `error` parameter
while `stderr` keeps both. -/
def SSHTerminal_verifyKnownHost (state : ServerKnown) (hexa : String)
    (error0 : String) (session_err : String) : VerifyOut :=
  match state with
  | ServerKnown.knownOk => ⟨0, error0, ""⟩
  | ServerKnown.knownChanged =>
    ⟨-1, changed_error_text hexa, changed_stderr_text hexa⟩
  | ServerKnown.foundOther => ⟨-1, found_other_text, found_other_text⟩
  | ServerKnown.fileNotFound =>
    ⟨1, not_known_error_text hexa,
      file_not_found_text ++ not_known_stderr_text hexa⟩
  | ServerKnown.notKnown =>
    ⟨1, not_known_error_text hexa, not_known_stderr_text hexa⟩
  | ServerKnown.serverError => ⟨-1, session_err, session_err⟩

/-- A sample public-key hash rendering. -/
def hexaSample : String := "ab:cd"

/-- An empty string (the callers pass `error` in empty). -/
def emptyStr : String := ""

/-- Counterexample to claim C8 as stated: with an absent known-hosts
file the function does return the not-known case's code `1` and does
fall through, but the resulting `error` message is not the combined
text of both cases — the `SSH_SERVER_NOT_KNOWN` arm reassigns `error`,
so the message handed back is exactly the "server is unknown" text and
differs from the combined message the claim describes (only the
`stderr` stream carries both). -/
theorem C8_fallthrough_cex :
    (SSHTerminal_verifyKnownHost ServerKnown.fileNotFound hexaSample
        emptyStr emptyStr).retCode = 1 ∧
    (SSHTerminal_verifyKnownHost ServerKnown.fileNotFound hexaSample
        emptyStr emptyStr).errorMsg = not_known_error_text hexaSample ∧
    not_known_error_text hexaSample ≠
      file_not_found_text ++ not_known_error_text hexaSample := by
  refine ⟨rfl, rfl, by decide⟩

/-- Claim C8 (amended): the `SSH_SERVER_FILE_NOT_FOUND` case falls
through into `SSH_SERVER_NOT_KNOWN` without a `break`, so for an
absent known-hosts file the outcome is the not-known case's return
code `1` and the `stderr` transcript is the combined message of both
cases; the `error` out-parameter, however, is overwritten by the
not-known case's assignment and carries only the "server is unknown"
text. -/
theorem C8_fallthrough_amended (hexa error0 session_err : String) :
    SSHTerminal_verifyKnownHost ServerKnown.fileNotFound hexa error0 session_err =
      ⟨1, not_known_error_text hexa,
        file_not_found_text ++ not_known_stderr_text hexa⟩ ∧
    (SSHTerminal_verifyKnownHost ServerKnown.fileNotFound hexa error0
        session_err).stderrOut =
      file_not_found_text ++
        (SSHTerminal_verifyKnownHost ServerKnown.notKnown hexa error0
          session_err).stderrOut ∧
    (SSHTerminal_verifyKnownHost ServerKnown.fileNotFound hexa error0
        session_err).retCode =
      (SSHTerminal_verifyKnownHost ServerKnown.notKnown hexa error0
        session_err).retCode :=
  ⟨rfl, rfl, rfl⟩

/-! ## Writing a key stroke (`SSHTerminal::write`)

The guard of `SSHTerminal::write` is
`if (!m_channel && (!m_channel->isOpen() || m_channel->isEof())) return -1;`:
with a non-null channel the left conjunct is false and `&&`
short-circuits, so the open/EOF tests are never evaluated; with a null
channel the left conjunct is true and the right conjunct dereferences
the null pointer. -/

/-- The channel state `SSHTerminal::write` would have consulted. -/
structure TermChannel where
  channel_is_open : Bool
  channel_is_eof : Bool
  deriving DecidableEq, Repr

/-- The observable outcome of `SSHTerminal::write`. -/
inductive WriteOutcome where
  | notConnected
  | nullDeref
  | forwarded
  deriving DecidableEq, Repr

/-- `SSHTerminal::write` (SSHTerminal.cpp): a disconnected session
returns `-1`; otherwise, with a null channel pointer the guard itself
dereferences the null channel (`nullDeref`), and with a non-null
channel the byte is forwarded to `Channel::write` unconditionally. -/
def SSHTerminal_write (connected : Bool) (channel : Option TermChannel) :
    WriteOutcome :=
  if ¬ connected then WriteOutcome.notConnected
  else
    match channel with
    | Option.none => WriteOutcome.nullDeref
    | some _ => WriteOutcome.forwarded

/-- Claim C10 (confirmed): the channel guard of `SSHTerminal::write`
is effective only for a null channel pointer.  On a connected session
with a non-null channel the byte is forwarded to `Channel::write`
whatever the channel's open/EOF state; on a connected session with a
null channel the guard itself dereferences the null pointer instead of
returning the error. -/
theorem C10_write_guard_ineffective (connected : Bool) (c : TermChannel)
    (hconn : connected = true) :
    SSHTerminal_write connected (some c) = WriteOutcome.forwarded ∧
    SSHTerminal_write connected Option.none = WriteOutcome.nullDeref := by
  subst hconn
  exact ⟨rfl, rfl⟩

/-- Witness for C10: a connected session whose channel is closed and
at EOF still has its byte forwarded, and a connected session with no
channel hits the null dereference. -/
theorem C10_write_guard_ineffective_witness :
    SSHTerminal_write true (some ⟨false, true⟩) = WriteOutcome.forwarded ∧
    SSHTerminal_write true Option.none = WriteOutcome.nullDeref :=
  C10_write_guard_ineffective true ⟨false, true⟩ rfl

end BeagleTerm
